import Mathlib

/-!
Shallow embedding of the chain-organizer core of a Bitcoin full node
(libbitcoin-node): the confirm chaser (`src/chasers/chaser_confirm.cpp`),
the templated organizer (`include/.../impl/chasers/chaser_organize.ipp`),
the blocks-first organizer (`src/chasers/chaser_block.cpp`) and the
currency predicate of the supervisor (`src/full_node.cpp`).

Hashes, header links and heights are modelled as `Nat`; 256-bit work sums
are modelled as `Nat` (work only accumulates and is compared, and the
C++ `uint256_t` sums of per-header proofs cannot overflow); the store's
terminal link sentinel is modelled with `Option`.  Association lists stand
for the store tables; an update conses a new binding, `List.lookup` reads
the most recent one.  The external store (libbitcoin-database) and system
library (libbitcoin-system) are collaborators whose sources are not part
of this repository; their operations are modelled from the spec's Store
API section, with `block_confirmable` (full confirmation validation) kept
as an oracle table in the store model.
-/

namespace Node

/-- Error / state codes observable in the embedded control flow.  The
constructors cover the node error codes used by the embedded functions,
the database state codes returned by `get_block_state` /
`get_header_state`, and a generic consensus-validation failure
(`invalid`). -/
inductive Code where
  | success
  | serviceStopped
  | duplicate
  | orphan
  | checkpointConflict
  | unassociated
  | unvalidated
  | blockConfirmable
  | blockUnconfirmable
  | integrity
  | invalid
  | protocolViolation
  | getHeightErr
  | getForkWorkErr
  | getIsStrongErr
  | invalidForkPoint
  | toConfirmedErr
  | popConfirmedErr
  | nodeConfirm
  | setBlockUnconfirmableErr
  | nodeRollBack
  | blockConfirmableErr
  | setConfirmed
  | getBranchWorkErr
  | invalidBranchPoint
  | popCandidateErr
  | pushCandidateErr
  | nodePushErr
  | storeIntegrity
  | getCandidateChainStateErr
  | getBlockErr
  deriving DecidableEq, Repr

/-- The chase events relevant to the embedded chasers (`chase::` enum). -/
inductive Chase where
  | reorganized
  | unconfirmable
  | confirmable
  | malleated
  | organized
  | bump
  | headerEvent
  | blockEvent
  | regressed
  | disorganized
  | bypass
  deriving DecidableEq, Repr

/-- The reporter events (`events::` enum) fired by the embedded chasers. -/
inductive Fired where
  | blockReorganized
  | blockUnconfirmable
  | confirmBypassed
  | blockConfirmed
  | blockMalleated
  | blockOrganized
  | headerReorganized
  | headerOrganized
  deriving DecidableEq, Repr

/-- An observable emission: either a bus notification (`notify(ec, chase,
value)`) or a reporter fire (`fire(event, value)`). -/
inductive Event where
  | note (ec : Code) (e : Chase) (v : Nat)
  | fired (e : Fired) (v : Nat)
  deriving DecidableEq, Repr

/-- Modelled from the spec: `is_bypassed(height)` of the chaser base class
(`chasers/chaser.hpp`, not under `src/`): a height is bypassed when it is
at or below the bypass height received via `chase::bypass`, which carries
`max(top-checkpoint-height, active-milestone-height)`. -/
def is_bypassed (bypass height : Nat) : Bool :=
  height ≤ bypass

end Node

namespace Node.Confirm

/-- The slice of the store consumed by `chaser_confirm`, plus the
`block_confirmable` oracle.  `links` is the set of archived header links
(store writes against a link fail when it is not archived, in particular
against the terminal link); `blockState` is the block-state table read by
`get_block_state`; `confirmFail` records, for links on which the store's
full confirmation validation `block_confirmable` fails, the reported
code (absence means the validation succeeds); `proofOf` models the pure
system function `chain::header::proof(bits)`. -/
structure Store where
  candidate : List Nat
  confirmed : List Nat
  links : List Nat
  bits : List (Nat × Nat)
  blockState : List (Nat × Code)
  malleable : List Nat
  confirmFail : List (Nat × Code)
  strongSet : List Nat
  proofOf : Nat → Nat

/-- Store query `to_candidate(height)`: `none` models the terminal link. -/
def Store.to_candidate (s : Store) (height : Nat) : Option Nat :=
  s.candidate[height]?

/-- Store query `to_confirmed(height)`: `none` models the terminal link. -/
def Store.to_confirmed (s : Store) (height : Nat) : Option Nat :=
  s.confirmed[height]?

/-- Store query `get_top_confirmed()`. -/
def Store.get_top_confirmed (s : Store) : Nat :=
  s.confirmed.length - 1

/-- Store query `is_confirmed_block(link)`. -/
def Store.is_confirmed_block (s : Store) (link : Nat) : Bool :=
  s.confirmed.contains link

/-- Store query `get_bits(bits, link)`. -/
def Store.get_bits (s : Store) (link : Nat) : Option Nat :=
  s.bits.lookup link

/-- Store query `get_block_state(link)`; an archived link without a
binding in the state table reads `unassociated`. -/
def Store.get_block_state (s : Store) (link : Nat) : Code :=
  (s.blockState.lookup link).getD Code.unassociated

/-- Store query `is_malleable64(link)`. -/
def Store.is_malleable64 (s : Store) (link : Nat) : Bool :=
  s.malleable.contains link

/-- Store call `block_confirmable(link)`: runs full confirmation
validation; modelled by the oracle table. -/
def Store.block_confirmable (s : Store) (link : Nat) : Code :=
  (s.confirmFail.lookup link).getD Code.success

/-- Store writer `pop_confirmed()`: fails on an empty confirmed index. -/
def Store.pop_confirmed (s : Store) : Option Store :=
  if s.confirmed.isEmpty then none
  else some { s with confirmed := s.confirmed.dropLast }

/-- Store writer `push_confirmed(link)`. -/
def Store.push_confirmed (s : Store) (link : Nat) : Option Store :=
  some { s with confirmed := s.confirmed ++ [link] }

/-- Store writer `set_strong(link)`: fails when the link is not archived
(in particular on the terminal link). -/
def Store.set_strong (s : Store) (link : Nat) : Option Store :=
  if s.links.contains link then
    some { s with strongSet := link :: s.strongSet }
  else none

/-- Store writer `set_unstrong(link)`: fails when the link is not
archived (in particular on the terminal link). -/
def Store.set_unstrong (s : Store) (link : Nat) : Option Store :=
  if s.links.contains link then
    some { s with strongSet := s.strongSet.erase link }
  else none

/-- Store writer `set_block_unconfirmable(link)`. -/
def Store.set_block_unconfirmable (s : Store) (link : Nat) : Option Store :=
  if s.links.contains link then
    some { s with blockState := (link, Code.blockUnconfirmable) :: s.blockState }
  else none

/-- Store writer `set_block_confirmable(link, fees)`. -/
def Store.set_block_confirmable (s : Store) (link : Nat) : Option Store :=
  if s.links.contains link then
    some { s with blockState := (link, Code.blockConfirmable) :: s.blockState }
  else none

/-- `chaser_confirm::get_fork_work`: walk the candidate index down from
`fork_top` to the first confirmed block, accumulating `fork` links and
their proof.  A terminal candidate (regression) zeroes the work and
returns success; a missing `bits` is a failure (`none`). -/
def get_fork_work (s : Store) : Nat → Nat → List Nat → Option (Nat × List Nat)
  | forkTop, work, fork =>
    match s.to_candidate forkTop with
    | none => some (0, fork)
    | some link =>
      if s.is_confirmed_block link then some (work, fork)
      else
        match s.get_bits link with
        | none => none
        | some b =>
          match forkTop with
          | 0 => some (0, fork ++ [link])
          | t + 1 => get_fork_work s t (work + s.proofOf b) (fork ++ [link])

/-- Loop of `chaser_confirm::get_is_strong`: scan the confirmed index
from `height` down to (exclusive) `forkPoint`, accumulating proof into
`acc`; not strong as soon as the accumulation reaches `forkWork`. -/
def get_is_strong_go (s : Store) (forkWork forkPoint : Nat) :
    Nat → Nat → Option Bool
  | height, acc =>
    if height ≤ forkPoint then some true
    else
      match height with
      | 0 => some true
      | h + 1 =>
        match s.to_confirmed (h + 1) with
        | none => none
        | some link =>
          match s.get_bits link with
          | none => none
          | some b =>
            if forkWork ≤ acc + s.proofOf b then some false
            else get_is_strong_go s forkWork forkPoint h (acc + s.proofOf b)

/-- `chaser_confirm::get_is_strong`: the fork is strong when its work
exceeds the confirmed work accumulated from `get_top_confirmed` down to
(exclusive) `forkPoint`. -/
def get_is_strong (s : Store) (forkWork forkPoint : Nat) : Option Bool :=
  get_is_strong_go s forkWork forkPoint s.get_top_confirmed 0

/-- `chaser_confirm::set_organized`: push the link onto the confirmed
index and emit `organized` / `block_organized`. -/
def set_organized (s : Store) (link height : Nat) :
    Option (Store × List Event) :=
  match s.push_confirmed link with
  | none => none
  | some s1 =>
    some (s1, [Event.note Code.success Chase.organized link,
               Event.fired Fired.blockOrganized height])

/-- `chaser_confirm::set_reorganized`: set the link unstrong and pop it
from the confirmed index, emitting `reorganized` / `block_reorganized`.
The `link` argument is the possibly-terminal value of a `to_confirmed`
query; failure returns the store as mutated so far. -/
def set_reorganized (s : Store) (link : Option Nat) (height : Nat) :
    Except Store (Store × List Event) :=
  match link with
  | none => Except.error s
  | some l =>
    match s.set_unstrong l with
    | none => Except.error s
    | some s1 =>
      match s1.pop_confirmed with
      | none => Except.error s1
      | some s2 =>
        Except.ok (s2, [Event.note Code.success Chase.reorganized l,
                        Event.fired Fired.blockReorganized height])

/-- First loop of `chaser_confirm::roll_back`: pop (via
`set_reorganized`) from `height` down to (exclusive) `forkPoint`. -/
def roll_back_pop (s : Store) (forkPoint : Nat) :
    Nat → List Event → Except (Store × List Event) (Store × List Event)
  | height, evs =>
    if height ≤ forkPoint then Except.ok (s, evs)
    else
      match height with
      | 0 => Except.ok (s, evs)
      | h + 1 =>
        match set_reorganized s (s.to_confirmed (h + 1)) (h + 1) with
        | Except.error s' => Except.error (s', evs)
        | Except.ok (s', e) => roll_back_pop s' forkPoint h (evs ++ e)

/-- Second loop of `chaser_confirm::roll_back`: re-push the originally
popped links (in original, ascending order) with `set_strong` and
`set_organized`, bumping the height from `forkPoint`. -/
def roll_back_push (s : Store) (forkPoint : Nat) :
    List Nat → List Event → Bool × Store × List Event
  | [], evs => (true, s, evs)
  | l :: rest, evs =>
    match s.set_strong l with
    | none => (false, s, evs)
    | some s1 =>
      match set_organized s1 l (forkPoint + 1) with
      | none => (false, s1, evs)
      | some (s2, e) => roll_back_push s2 (forkPoint + 1) rest (evs ++ e)

/-- `chaser_confirm::roll_back(popped, fork_point, top)`. -/
def roll_back (s : Store) (popped : List Nat) (forkPoint top : Nat) :
    Bool × Store × List Event :=
  match roll_back_pop s forkPoint top [] with
  | Except.error (s', evs) => (false, s', evs)
  | Except.ok (s', evs) => roll_back_push s' forkPoint popped.reverse evs

/-- Result of a `do_validated` call: the store as mutated, the emitted
events in order, and the fault code when the call ended in `fault(...)`. -/
structure VOut where
  store : Store
  events : List Event
  fault : Option Code

/-- Pop loop of `chaser_confirm::do_validated`: pop the confirmed index
from `index` down to (exclusive) `forkPoint`, recording popped links. -/
def pop_loop (s : Store) (forkPoint : Nat) :
    Nat → List Nat → List Event →
    Except (Store × List Event × Code) (Store × List Nat × List Event)
  | index, popped, evs =>
    if index ≤ forkPoint then Except.ok (s, popped, evs)
    else
      match index with
      | 0 => Except.ok (s, popped, evs)
      | i + 1 =>
        match s.to_confirmed (i + 1) with
        | none => Except.error (s, evs, Code.toConfirmedErr)
        | some l =>
          match s.pop_confirmed with
          | none => Except.error (s, evs, Code.popConfirmedErr)
          | some s' =>
            pop_loop s' forkPoint i (popped ++ [l])
              (evs ++ [Event.note Code.success Chase.reorganized l,
                       Event.fired Fired.blockReorganized (i + 1)])

/-- Main loop of `chaser_confirm::do_validated`: walk the `fork` links in
ascending order, confirming each against its stored block state, the
bypass, and the store's `block_confirmable` validation.  `index` is the
height label carried by the C++ loop (incremented only on the
push-confirmed branch, exactly as in the source). -/
def main_loop (s : Store) (bypass height : Nat) :
    List Nat → List Nat → Nat → Nat → List Event → VOut
  | [], _popped, _forkPoint, _index, evs => ⟨s, evs, none⟩
  | link :: rest, popped, forkPoint, index, evs =>
    let ec := s.get_block_state link
    if ec = Code.integrity then ⟨s, evs, some Code.integrity⟩
    else if ec = Code.blockUnconfirmable then
      -- the source returns here without the rollback (its TODO notes that
      -- a rollback is required)
      ⟨s, evs ++ [Event.note ec Chase.unconfirmable link,
                  Event.fired Fired.blockUnconfirmable index], none⟩
    else
      let malleable64 := s.is_malleable64 link
      if ec = Code.blockConfirmable ∨
          (is_bypassed bypass index ∧ ¬malleable64) then
        main_loop s bypass height rest popped forkPoint index
          (evs ++ [Event.note ec Chase.confirmable index,
                   Event.fired Fired.confirmBypassed index])
      else
        let ec2 := s.block_confirmable link
        if ec2 = Code.integrity then ⟨s, evs, some Code.nodeConfirm⟩
        else if ec2 ≠ Code.success then
          if is_bypassed bypass height then
            ⟨s, evs ++ [Event.note ec2 Chase.malleated link,
                        Event.fired Fired.blockMalleated index], none⟩
          else
            match s.set_block_unconfirmable link with
            | none => ⟨s, evs, some Code.setBlockUnconfirmableErr⟩
            | some s1 =>
              let evs1 := evs ++ [Event.note ec2 Chase.unconfirmable link,
                                  Event.fired Fired.blockUnconfirmable index]
              match roll_back s1 popped forkPoint index with
              | (false, s2, evs2) => ⟨s2, evs1 ++ evs2, some Code.nodeRollBack⟩
              | (true, s2, evs2) => ⟨s2, evs1 ++ evs2, none⟩
        else
          match s.set_block_confirmable link with
          | none => ⟨s, evs, some Code.blockConfirmableErr⟩
          | some s1 =>
            let evs1 := evs ++ [Event.note Code.success Chase.confirmable index,
                                Event.fired Fired.blockConfirmed index]
            match set_organized s1 link index with
            | none => ⟨s1, evs1, some Code.setConfirmed⟩
            | some (s2, e) =>
              main_loop s2 bypass height rest popped forkPoint (index + 1)
                (evs1 ++ e)

/-- `chaser_confirm::do_validated(height)`.  Mirrors the source: the
strength test `get_is_strong` is invoked with `height` (the call at the
source passes `height`, the fork point being computed only afterwards),
and the fork point is `height - fork.size()`. -/
def do_validated (s : Store) (bypass : Nat) (closed : Bool) (height : Nat) :
    VOut :=
  if closed then ⟨s, [], none⟩
  else
    match get_fork_work s height 0 [] with
    | none => ⟨s, [], some Code.getForkWorkErr⟩
    | some (work, fork) =>
      match get_is_strong s work height with
      | none => ⟨s, [], some Code.getIsStrongErr⟩
      | some strong =>
        if !strong then ⟨s, [], none⟩
        else
          let top := s.get_top_confirmed
          let forkPoint := height - fork.length
          if top < forkPoint then ⟨s, [], some Code.invalidForkPoint⟩
          else
            match pop_loop s forkPoint top [] [] with
            | Except.error (s', evs, c) => ⟨s', evs, some c⟩
            | Except.ok (s', popped, evs) =>
              main_loop s' bypass height fork.reverse popped forkPoint
                (forkPoint + 1) evs

/-- Proof of the confirmed-index entry at a height (zero when absent). -/
def confirmed_proof_at (s : Store) (height : Nat) : Nat :=
  (((s.to_confirmed height).bind s.get_bits).map s.proofOf).getD 0

/-- Modelled from the spec: the confirmed chain's work summed from the
given height down to (exclusive) the fork point — the summation range the
spec prescribes for the strength decision of `do_validated` is from
`top_confirmed` down to the fork point. -/
def spec_confirmed_work (s : Store) (forkPoint : Nat) : Nat → Nat
  | 0 => 0
  | h + 1 =>
    if h + 1 ≤ forkPoint then 0
    else confirmed_proof_at s (h + 1) + spec_confirmed_work s forkPoint h

/-- Scenario store for the `block_unconfirmable` walk: confirmed chain
`[0, 1, 2]`, candidate chain `[0, 1, 10, 11]` (fork point height 1), and
link `10` stored as `block_unconfirmable`. -/
def c1_store : Store where
  candidate := [0, 1, 10, 11]
  confirmed := [0, 1, 2]
  links := [0, 1, 2, 10, 11]
  bits := [(0, 1), (1, 1), (2, 1), (10, 5), (11, 5)]
  blockState := [(10, Code.blockUnconfirmable)]
  malleable := []
  confirmFail := []
  strongSet := []
  proofOf := fun b => b

/-- Scenario store for the strength-range decision: confirmed chain
`[0, 1, 2, 3]` with heavy work at heights 1 and 2, candidate chain
`[0, 10, 11]` forking at genesis with light work. -/
def c2_store : Store where
  candidate := [0, 10, 11]
  confirmed := [0, 1, 2, 3]
  links := [0, 1, 2, 3, 10, 11]
  bits := [(0, 1), (1, 10), (2, 10), (3, 1), (10, 2), (11, 1)]
  blockState := []
  malleable := []
  confirmFail := []
  strongSet := []
  proofOf := fun b => b

/-- Scenario store for the confirm rollback: confirmed chain `[0, 1, 2]`,
candidate chain `[0, 1, 10, 11]` (fork point height 1), and the store's
`block_confirmable` validation failing on link `10`. -/
def c7_store : Store where
  candidate := [0, 1, 10, 11]
  confirmed := [0, 1, 2]
  links := [0, 1, 2, 10, 11]
  bits := [(0, 1), (1, 1), (2, 1), (10, 5), (11, 5)]
  blockState := []
  malleable := []
  confirmFail := [(10, Code.invalid)]
  strongSet := []
  proofOf := fun b => b

end Node.Confirm

namespace Node

/-- `node::settings::currency_window()`: the currency window in seconds
derived from `node.currency_window_minutes`. -/
def currency_window (minutes : Nat) : Nat :=
  minutes * 60

/-- `full_node::is_current(timestamp)`: a zero window disables the check;
otherwise the timestamp must be at or after wall-clock now minus the
window.  Clock arithmetic is in seconds; `Nat` subtraction clamps at zero
exactly as a negative lower bound accepts every (unsigned) timestamp. -/
def is_current (windowMinutes now timestamp : Nat) : Bool :=
  windowMinutes = 0 || decide (now - currency_window windowMinutes ≤ timestamp)

/-- Modelled from the spec's words: a timestamp "is within the configured
window of wall-clock now" when it is no older than the window before now. -/
def within_currency_window (windowMinutes now timestamp : Nat) : Bool :=
  now - timestamp ≤ currency_window windowMinutes

end Node


namespace Node.Organize

/-- An archived header record: hash, previous hash, compact target bits,
timestamp, and the height of the context it was archived at. -/
structure HeaderRec where
  hash : Nat
  prev : Nat
  bits : Nat
  time : Nat
  height : Nat
  deriving DecidableEq, Repr

/-- The slice of a `ChainState` cursor the organizer observes: its height
and hash.  Constructing a child from a parent and a header yields
height + 1 and the header's hash. -/
structure ChainState where
  height : Nat
  hash : Nat
  deriving DecidableEq, Repr

/-- A submitted header or block, reduced to the fields the organizer
reads. -/
structure BlockIn where
  hash : Nat
  prev : Nat
  bits : Nat
  time : Nat
  deriving DecidableEq, Repr

/-- A HeaderTree entry: the cached block and its chain state. -/
structure TreeEntry where
  blk : BlockIn
  state : ChainState
  deriving DecidableEq, Repr

/-- The slice of the store consumed by the organizers: the header archive
(link-keyed), the per-link block-state table, the candidate and confirmed
indices (position = height), and the next fresh link for `set_link`. -/
structure Store where
  headers : List (Nat × HeaderRec)
  headerState : List (Nat × Code)
  candidate : List Nat
  confirmed : List Nat
  nextLink : Nat
  deriving DecidableEq, Repr

/-- Configuration handed to the organizer at construction: mode, the
milestone `(height, hash)`, the sorted checkpoints and their top height,
the currency window and wall-clock now (for `is_current`), and the pure
system proof function `chain::header::proof(bits)`. -/
structure Cfg where
  isBlock : Bool
  milestoneHeight : Nat
  milestoneHash : Nat
  topCheckpoint : Nat
  checkpoints : List (Nat × Nat)
  windowMinutes : Nat
  now : Nat
  proofOf : Nat → Nat

/-- The organizer's own mutable state: the HeaderTree, the cached top
candidate chain state `state_`, and `active_milestone_height_`. -/
structure Organizer where
  tree : List (Nat × TreeEntry)
  state : Option ChainState
  activeMilestone : Nat
  deriving DecidableEq, Repr

/-- Archive read of a header record by link. -/
def Store.headerOf (s : Store) (link : Nat) : Option HeaderRec :=
  s.headers.lookup link

/-- Store query `to_header(hash)`: the link of the archived header with
the given hash (`none` models the terminal link). -/
def Store.to_header (s : Store) (hash : Nat) : Option Nat :=
  (s.headers.find? (fun p => p.2.hash == hash)).map (·.1)

/-- Store query `get_height(height, link)`. -/
def Store.get_height (s : Store) (link : Nat) : Option Nat :=
  (s.headerOf link).map (·.height)

/-- Store query `get_bits(bits, link)`. -/
def Store.get_bits (s : Store) (link : Nat) : Option Nat :=
  (s.headerOf link).map (·.bits)

/-- Store query `get_header_key(link)`: the header's hash (the null hash,
modelled as `0`, when the link is unknown). -/
def Store.get_header_key (s : Store) (link : Nat) : Nat :=
  ((s.headerOf link).map (·.hash)).getD 0

/-- Store query `get_header_state(link)`: the block state recorded for an
archived header; a header without a body reads `unassociated`. -/
def Store.get_header_state (s : Store) (link : Nat) : Code :=
  (s.headerState.lookup link).getD Code.unassociated

/-- Store query `get_block_state(link)` as used by the blocks-first
organizer; modelled by the same per-link state table. -/
def Store.get_block_state (s : Store) (link : Nat) : Code :=
  s.get_header_state link

/-- Store query `to_candidate(height)`. -/
def Store.to_candidate (s : Store) (height : Nat) : Option Nat :=
  s.candidate[height]?

/-- Store query `to_confirmed(height)`. -/
def Store.to_confirmed (s : Store) (height : Nat) : Option Nat :=
  s.confirmed[height]?

/-- Store query `get_top_candidate()`. -/
def Store.get_top_candidate (s : Store) : Nat :=
  s.candidate.length - 1

/-- Store query `get_top_confirmed()`. -/
def Store.get_top_confirmed (s : Store) : Nat :=
  s.confirmed.length - 1

/-- Store query `is_candidate_header(link)`: the link sits on the
candidate index at its archived height. -/
def Store.is_candidate_header (s : Store) (link : Nat) : Bool :=
  match s.get_height link with
  | none => false
  | some h => decide (s.to_candidate h = some link)

/-- Store query `is_candidate_block(link)` (blocks-first organizer): a
candidate header whose block body is associated. -/
def Store.is_candidate_block (s : Store) (link : Nat) : Bool :=
  s.is_candidate_header link && decide (s.get_block_state link ≠ Code.unassociated)

/-- Store query `to_parent(link)`. -/
def Store.to_parent (s : Store) (link : Nat) : Option Nat :=
  (s.headerOf link).bind (fun r => s.to_header r.prev)

/-- Store writer `pop_candidate()`: fails on an empty candidate index. -/
def Store.pop_candidate (s : Store) : Option Store :=
  if s.candidate.isEmpty then none
  else some { s with candidate := s.candidate.dropLast }

/-- Store writer `push_candidate(link)`. -/
def Store.push_candidate (s : Store) (link : Nat) : Option Store :=
  some { s with candidate := s.candidate ++ [link] }

/-- Store writer `set_link(block, context)`: archive the block under a
fresh link at the context height. -/
def Store.set_link (s : Store) (b : BlockIn) (ctxHeight : Nat) : Nat × Store :=
  (s.nextLink,
   { s with
     headers := s.headers ++ [(s.nextLink, ⟨b.hash, b.prev, b.bits, b.time, ctxHeight⟩)],
     nextLink := s.nextLink + 1 })

/-- Store query `get_candidate_chain_state(settings, height)`: the chain
state cursor at the given candidate height. -/
def Store.get_candidate_chain_state (s : Store) (height : Nat) :
    Option ChainState :=
  (s.to_candidate height).bind
    (fun l => (s.headerOf l).map (fun r => (⟨height, r.hash⟩ : ChainState)))

/-- Store query `get_chain_state(settings, hash)`: the chain state cursor
of the archived header with the given hash. -/
def Store.get_chain_state_by_hash (s : Store) (hash : Nat) :
    Option ChainState :=
  (s.to_header hash).bind
    (fun l => (s.headerOf l).map (fun r => (⟨r.height, r.hash⟩ : ChainState)))

/-- Loop of the store query `get_fork()`: scan down from the given height
for the first height at which the candidate and confirmed indices hold
the same link (height zero, genesis, is always shared). -/
def Store.get_fork_go (s : Store) : Nat → Nat
  | 0 => 0
  | h + 1 =>
    if s.to_confirmed (h + 1) = s.to_candidate (h + 1) then h + 1
    else s.get_fork_go h

/-- Store query `get_fork()`: the highest height shared by the candidate
and confirmed indices, scanning down from `get_top_confirmed`. -/
def Store.get_fork (s : Store) : Nat :=
  s.get_fork_go s.get_top_confirmed

/-- Modelled from the spec: `system::chain::checkpoint::is_conflict` —
the hash disagrees with a configured checkpoint at this height. -/
def checkpoint_is_conflict (cps : List (Nat × Nat)) (hash height : Nat) : Bool :=
  cps.any (fun c => c.1 == height && c.2 != hash)

/-- Modelled from the spec: `system::chain::checkpoint::is_under` — the
height is at or below some configured checkpoint's height (hence at or
below the highest). -/
def checkpoint_is_under (cps : List (Nat × Nat)) (height : Nat) : Bool :=
  cps.any (fun c => decide (height ≤ c.1))

/-- `chaser_organize::get_chain_state`: top cache, then HeaderTree, then
store lookup by hash. -/
def get_chain_state (org : Organizer) (s : Store) (prevHash : Nat) :
    Option ChainState :=
  match org.state with
  | none => none
  | some st =>
    if st.hash = prevHash then some st
    else
      match org.tree.lookup prevHash with
      | some e => some e.state
      | none => s.get_chain_state_by_hash prevHash

/-- `chaser_organize::cache`: insert the block and its state into the
HeaderTree keyed by the block hash. -/
def cache (org : Organizer) (blk : BlockIn) (state : ChainState) : Organizer :=
  { org with tree := (blk.hash, ⟨blk, state⟩) :: org.tree }

/-- `chaser_organize::notify_bypass`: a `chase::bypass` notification
carrying `max(active_milestone_height_, top_checkpoint_height_)`. -/
def notify_bypass_event (cfg : Cfg) (org : Organizer) : Event :=
  Event.note Code.success Chase.bypass (max org.activeMilestone cfg.topCheckpoint)

/-- `chaser_organize::reset_milestone(branch_point)`: lower the active
milestone to the branch point when it currently exceeds it. -/
def reset_milestone (cfg : Cfg) (org : Organizer) (branchPoint : Nat) :
    Organizer × List Event :=
  if branchPoint < org.activeMilestone then
    let org' := { org with activeMilestone := branchPoint }
    (org', [notify_bypass_event cfg org'])
  else (org, [])

/-- `chaser_organize::update_milestone(hash, height)`: activate the
milestone when the pushed header matches the configured `(height, hash)`. -/
def update_milestone_hash (cfg : Cfg) (org : Organizer) (hash height : Nat) :
    Organizer × List Event :=
  if height = cfg.milestoneHeight ∧ hash = cfg.milestoneHash then
    let org' := { org with activeMilestone := height }
    (org', [notify_bypass_event cfg org'])
  else (org, [])

/-- `chaser_organize::update_milestone(link, height)`: defer the hash
query until the heights compare equal. -/
def update_milestone_link (cfg : Cfg) (org : Organizer) (s : Store)
    (link height : Nat) : Organizer × List Event :=
  if height ≠ cfg.milestoneHeight then (org, [])
  else update_milestone_hash cfg org (s.get_header_key link) height

/-- Tree loop of `chaser_organize::get_branch_work`: follow previous
hashes through the HeaderTree, summing proof and collecting the branch
hashes.  The fuel (tree size + 1) only bounds the walk on a (malformed)
cyclic tree, on which the source would not terminate. -/
def branch_work_tree (cfg : Cfg) (tree : List (Nat × TreeEntry)) :
    Nat → Nat → Nat → List Nat → Nat × Nat × List Nat
  | 0, previous, work, treeBranch => (previous, work, treeBranch)
  | fuel + 1, previous, work, treeBranch =>
    match tree.lookup previous with
    | none => (previous, work, treeBranch)
    | some e =>
      branch_work_tree cfg tree fuel e.blk.prev (work + cfg.proofOf e.blk.bits)
        (treeBranch ++ [e.blk.hash])

/-- Store loop of `chaser_organize::get_branch_work`: follow parent links
through archived headers until a candidate header, summing proof and
collecting the branch links.  A terminal link or missing bits fails; the
fuel (archive size + 1) only bounds the walk on a (malformed) cyclic
parent chain. -/
def branch_work_store (cfg : Cfg) (s : Store) :
    Nat → Option Nat → Nat → List Nat → Option (Nat × List Nat × Nat)
  | 0, _, _, _ => none
  | fuel + 1, link, work, storeBranch =>
    match link with
    | none => none
    | some l =>
      if s.is_candidate_header l then some (work, storeBranch, l)
      else
        match s.get_bits l with
        | none => none
        | some b =>
          branch_work_store cfg s fuel (s.to_parent l) (work + cfg.proofOf b)
            (storeBranch ++ [l])

/-- `chaser_organize::get_branch_work`: proof of the new header plus the
tree branch plus the store branch, down to the branch point (the height
of the first candidate header reached). -/
def get_branch_work (cfg : Cfg) (org : Organizer) (s : Store) (blk : BlockIn) :
    Option (Nat × Nat × List Nat × List Nat) :=
  match branch_work_tree cfg org.tree (org.tree.length + 1) blk.prev
      (cfg.proofOf blk.bits) [] with
  | (previous, w1, treeBranch) =>
    match branch_work_store cfg s (s.headers.length + 1) (s.to_header previous)
        w1 [] with
    | none => none
    | some (work, storeBranch, link) =>
      match s.get_height link with
      | none => none
      | some branchPoint => some (work, branchPoint, treeBranch, storeBranch)

/-- Loop of `chaser_organize::get_is_strong`: scan the candidate index
from `height` down to (exclusive) `branchPoint`, accumulating proof; not
strong as soon as the accumulation reaches `branchWork`. -/
def get_is_strong_go (cfg : Cfg) (s : Store) (branchWork branchPoint : Nat) :
    Nat → Nat → Option Bool
  | height, acc =>
    if height ≤ branchPoint then some true
    else
      match height with
      | 0 => some true
      | h + 1 =>
        match s.to_candidate (h + 1) with
        | none => none
        | some link =>
          match s.get_bits link with
          | none => none
          | some b =>
            if branchWork ≤ acc + cfg.proofOf b then some false
            else get_is_strong_go cfg s branchWork branchPoint h (acc + cfg.proofOf b)

/-- `chaser_organize::get_is_strong`: the new branch is strong when its
work exceeds the candidate work accumulated from `get_top_candidate` down
to (exclusive) the branch point. -/
def get_is_strong (cfg : Cfg) (s : Store) (branchWork branchPoint : Nat) :
    Option Bool :=
  get_is_strong_go cfg s branchWork branchPoint s.get_top_candidate 0

end Node.Organize

namespace Node.Organize

/-- Result of a `do_organize` call: the store and organizer as mutated,
the emitted events in order, and the handler's `(code, height)`. -/
structure OrgOut where
  store : Store
  org : Organizer
  events : List Event
  handler : Code × Nat
  deriving DecidableEq, Repr

/-- Result of a `do_disorganize` call. -/
structure DisOut where
  store : Store
  org : Organizer
  events : List Event
  fault : Option Code
  deriving DecidableEq, Repr

/-- `chase_object()`: `chase::block` for the blocks-first organizer,
`chase::header` for headers-first. -/
def chase_object (cfg : Cfg) : Chase :=
  if cfg.isBlock then Chase.blockEvent else Chase.headerEvent

/-- Pop loop shared by `do_organize` (step 10) and `do_disorganize`: pop
the candidate index from `index` down to (exclusive) `branchPoint`,
firing `header_reorganized` per pop; a failed pop aborts with the store
and events so far. -/
def pop_cand_loop (s : Store) (branchPoint : Nat) :
    Nat → List Event → Except (Store × List Event) (Store × List Event)
  | index, evs =>
    if index ≤ branchPoint then Except.ok (s, evs)
    else
      match index with
      | 0 => Except.ok (s, evs)
      | i + 1 =>
        match s.pop_candidate with
        | none => Except.error (s, evs)
        | some s' =>
          pop_cand_loop s' branchPoint i
            (evs ++ [Event.fired Fired.headerReorganized (i + 1)])

/-- Push loop for the store-resident branch (`do_organize` step 10):
push each link and update the milestone at the running height. -/
def push_store_loop (cfg : Cfg) (org : Organizer) (s : Store) :
    List Nat → Nat → List Event →
    Except (Organizer × Store × List Event)
      (Organizer × Store × Nat × List Event)
  | [], index, evs => Except.ok (org, s, index, evs)
  | l :: rest, index, evs =>
    match s.push_candidate l with
    | none => Except.error (org, s, evs)
    | some s' =>
      match update_milestone_link cfg org s' l index with
      | (org', e) => push_store_loop cfg org' s' rest (index + 1) (evs ++ e)

/-- `chaser_organize::push(key)`: extract the keyed entry from the
HeaderTree, archive it with `set_link` and push it onto the candidate
index.  A missing key is an assertion in the source; modelled as
failure. -/
def push_tree_key (org : Organizer) (s : Store) (key : Nat) :
    Option (Organizer × Store) :=
  match org.tree.lookup key with
  | none => none
  | some e =>
    let org' := { org with tree := org.tree.eraseP (fun p => p.1 == key) }
    match s.set_link e.blk e.state.height with
    | (link, s1) =>
      match s1.push_candidate link with
      | none => none
      | some s2 => some (org', s2)

/-- Push loop for the tree-resident branch (`do_organize` step 10): move
each keyed entry out of the HeaderTree onto the candidate index and
update the milestone at the running height. -/
def push_tree_loop (cfg : Cfg) (org : Organizer) (s : Store) :
    List Nat → Nat → List Event →
    Except (Organizer × Store × List Event)
      (Organizer × Store × Nat × List Event)
  | [], index, evs => Except.ok (org, s, index, evs)
  | key :: rest, index, evs =>
    match push_tree_key org s key with
    | none => Except.error (org, s, evs)
    | some (org1, s1) =>
      match update_milestone_hash cfg org1 key index with
      | (org2, e) => push_tree_loop cfg org2 s1 rest (index + 1) (evs ++ e)

/-- Reorganization tail of `chaser_organize::do_organize` (step 10 and
the notifications): pop to the branch point, `reset_milestone(++index)`
(the source passes `branch_point + 1`), push the store branch, the tree
branch and the new block, then notify. -/
def do_organize_reorg (cfg : Cfg) (org : Organizer) (s : Store) (blk : BlockIn)
    (state : ChainState) (height branchPoint : Nat)
    (treeBranch storeBranch : List Nat) : OrgOut :=
  -- state_ is non-null whenever organize proceeds past the parent lookup
  let topCandidate := ((org.state.map (·.height)).getD 0)
  if branchPoint > topCandidate then
    ⟨s, org, [], (Code.invalidBranchPoint, height)⟩
  else
    match pop_cand_loop s branchPoint topCandidate [] with
    | Except.error (s1, evs) => ⟨s1, org, evs, (Code.popCandidateErr, height)⟩
    | Except.ok (s1, evs) =>
      match reset_milestone cfg org (branchPoint + 1) with
      | (org1, evs1) =>
        match push_store_loop cfg org1 s1 storeBranch.reverse (branchPoint + 1)
            (evs ++ evs1) with
        | Except.error (org2, s2, evs2) =>
          ⟨s2, org2, evs2, (Code.pushCandidateErr, height)⟩
        | Except.ok (org2, s2, index2, evs2) =>
          match push_tree_loop cfg org2 s2 treeBranch.reverse index2 evs2 with
          | Except.error (org3, s3, evs3) =>
            ⟨s3, org3, evs3, (Code.nodePushErr, height)⟩
          | Except.ok (org3, s3, index3, evs3) =>
            match s3.set_link blk state.height with
            | (link, s4) =>
              match s4.push_candidate link with
              | none => ⟨s3, org3, evs3, (Code.nodePushErr, height)⟩
              | some s5 =>
                match update_milestone_hash cfg org3 blk.hash index3 with
                | (org4, evs4) =>
                  let evsA :=
                    if cfg.isBlock || is_current cfg.windowMinutes cfg.now blk.time
                    then [Event.note Code.success Chase.bump (branchPoint + 1),
                          Event.note Code.success (chase_object cfg) branchPoint]
                    else []
                  let evsB :=
                    if branchPoint < topCandidate
                    then [Event.note Code.success Chase.regressed branchPoint]
                    else []
                  ⟨s5, { org4 with state := some state },
                   evs3 ++ evs4 ++ evsA ++ evsB, (Code.success, height)⟩

/-- Body of `chaser_organize::do_organize` after the dedupe section:
parent lookup, chain-state rollforward, checkpoint conflict, the
mode-specific `validate` (abstract virtual, result passed in), the
storability test (abstract virtual, result passed in), relative work and
the strength decision. -/
def do_organize_main (cfg : Cfg) (org : Organizer) (s : Store) (blk : BlockIn)
    (validateRes : Option Code) (storable : Bool) : OrgOut :=
  match get_chain_state org s blk.prev with
  | none => ⟨s, org, [], (Code.orphan, 0)⟩
  | some parent =>
    let state : ChainState := ⟨parent.height + 1, blk.hash⟩
    let height := state.height
    if checkpoint_is_conflict cfg.checkpoints blk.hash height then
      ⟨s, org, [], (Code.checkpointConflict, height)⟩
    else
      match validateRes with
      | some ec => ⟨s, org, [], (ec, height)⟩
      | none =>
        if !storable then
          ⟨s, cache org blk state, [], (Code.success, height)⟩
        else
          match get_branch_work cfg org s blk with
          | none => ⟨s, org, [], (Code.getBranchWorkErr, height)⟩
          | some (work, branchPoint, treeBranch, storeBranch) =>
            match get_is_strong cfg s work branchPoint with
            | none => ⟨s, org, [], (Code.getIsStrongErr, height)⟩
            | some strong =>
              if !strong then
                ⟨s, cache org blk state, [], (Code.success, height)⟩
              else
                do_organize_reorg cfg org s blk state height branchPoint
                  treeBranch storeBranch

/-- `chaser_organize::do_organize(block, handler)`: the dedupe section
(tree hit, archived `unconfirmable` header state, archived duplicate)
followed by the main body.  The mode-specific `validate` and
`is_storable` are abstract virtuals of the template; their results for
this block are passed in. -/
def do_organize (cfg : Cfg) (org : Organizer) (s : Store) (blk : BlockIn)
    (closed : Bool) (validateRes : Option Code) (storable : Bool) : OrgOut :=
  if closed then ⟨s, org, [], (Code.serviceStopped, 0)⟩
  else
    match org.tree.lookup blk.hash with
    | some entry => ⟨s, org, [], (Code.duplicate, entry.state.height)⟩
    | none =>
      match s.to_header blk.hash with
      | some id =>
        match s.get_height id with
        | none => ⟨s, org, [], (Code.getHeightErr, 0)⟩
        | some height =>
          let ec := s.get_header_state id
          if ec = Code.blockUnconfirmable then ⟨s, org, [], (ec, height)⟩
          else if ¬cfg.isBlock ∨ ec ≠ Code.unassociated then
            ⟨s, org, [], (Code.duplicate, height)⟩
          else do_organize_main cfg org s blk validateRes storable
      | none => do_organize_main cfg org s blk validateRes storable

/-- Modelled from the spec: the virtual `get_block(block, height)` of the
headers-first organizer reads the candidate header at the height
(`chaser_header.cpp` is not under `src/`). -/
def get_block (s : Store) (height : Nat) : Option BlockIn :=
  (s.to_candidate height).bind
    (fun l => (s.headerOf l).map (fun r => (⟨r.hash, r.prev, r.bits, r.time⟩ : BlockIn)))

/-- Copy loop of `do_disorganize`: move the candidates at heights
`fork_point + 1 .. height - 1` into the HeaderTree in forward order,
chaining the chain state forward. -/
def disorg_copy (s : Store) :
    Nat → Nat → ChainState → List (Nat × TreeEntry) →
    Option (ChainState × List (Nat × TreeEntry))
  | 0, _, state, tree => some (state, tree)
  | n + 1, index, state, tree =>
    match get_block s index with
    | none => none
    | some blk =>
      let state' : ChainState := ⟨state.height + 1, blk.hash⟩
      disorg_copy s n (index + 1) state' ((blk.hash, ⟨blk, state'⟩) :: tree)

/-- Confirmed re-push loop of `do_disorganize`: push the confirmed-index
links at heights `fork_point + 1 .. top_confirmed` back onto the
candidate index, firing `header_organized` and updating the milestone. -/
def disorg_push (cfg : Cfg) (org : Organizer) (s : Store) :
    Nat → Nat → List Event →
    Except (Organizer × Store × List Event) (Organizer × Store × List Event)
  | 0, _, evs => Except.ok (org, s, evs)
  | n + 1, index, evs =>
    match s.to_confirmed index with
    | none => Except.error (org, s, evs)
    | some l =>
      match s.push_candidate l with
      | none => Except.error (org, s, evs)
      | some s1 =>
        match update_milestone_link cfg org s1 l index with
        | (org1, e) =>
          disorg_push cfg org1 s1 n (index + 1)
            (evs ++ [Event.fired Fired.headerOrganized index] ++ e)

/-- `chaser_organize::do_disorganize(link)`: guard on `closed` and
candidacy, locate the store fork point, copy the candidates strictly
below the failing height into the HeaderTree (forward order), pop the
candidate index down to the fork point, re-push the confirmed links
above it, refresh `state_` and notify `disorganized(fork_point)`. -/
def do_disorganize (cfg : Cfg) (org : Organizer) (s : Store) (link : Nat)
    (closed : Bool) : DisOut :=
  if closed then ⟨s, org, [], none⟩
  else if ¬s.is_candidate_header link then ⟨s, org, [], none⟩
  else
    match s.get_height link with
    | none => ⟨s, org, [], some Code.getHeightErr⟩
    | some height =>
      if height = 0 then ⟨s, org, [], some Code.getHeightErr⟩
      else
        let forkPoint := s.get_fork
        if height ≤ forkPoint then ⟨s, org, [], some Code.invalidForkPoint⟩
        else
          match s.get_candidate_chain_state forkPoint with
          | none => ⟨s, org, [], some Code.getCandidateChainStateErr⟩
          | some state0 =>
            match disorg_copy s (height - 1 - forkPoint) (forkPoint + 1) state0
                org.tree with
            | none => ⟨s, org, [], some Code.getBlockErr⟩
            | some (_stateEnd, tree') =>
              let org1 := { org with tree := tree' }
              -- state_ is non-null on the strand after start
              let topCandidate := ((org.state.map (·.height)).getD 0)
              match pop_cand_loop s forkPoint topCandidate [] with
              | Except.error (s1, evs) =>
                ⟨s1, org1, evs, some Code.popCandidateErr⟩
              | Except.ok (s1, evs) =>
                match reset_milestone cfg org1 forkPoint with
                | (org2, evs2) =>
                  let topConfirmed := s1.get_top_confirmed
                  match disorg_push cfg org2 s1
                      (topConfirmed + 1 - (forkPoint + 1)) (forkPoint + 1)
                      (evs ++ evs2) with
                  | Except.error (org3, s2, evs3) =>
                    ⟨s2, org3, evs3, some Code.pushCandidateErr⟩
                  | Except.ok (org3, s2, evs3) =>
                    match s2.get_candidate_chain_state topConfirmed with
                    | none => ⟨s2, org3, evs3, some Code.getCandidateChainStateErr⟩
                    | some stateN =>
                      ⟨s2, { org3 with state := some stateN },
                       evs3 ++ [Event.note Code.success Chase.disorganized forkPoint],
                       none⟩

end Node.Organize

namespace Node.BlockChaser

open Node.Organize

/-- The blocks-first chaser's own mutable state: its block tree and the
cached top candidate chain state. -/
structure Chaser where
  tree : List (Nat × TreeEntry)
  state : Option ChainState
  deriving DecidableEq, Repr

/-- Results of the system-library validation calls made on the submitted
block by `chaser_block::do_organize`: `block.check()`,
`block.check(context)`, `query.populate(block)`,
`block.accept(context, subsidy_interval, initial_subsidy)` and
`block.connect(context)` (libbitcoin-system consensus code, external to
this repository). -/
structure Checks where
  check1 : Option Code
  check2 : Option Code
  populateOk : Bool
  accept : Option Code
  connect : Option Code
  deriving DecidableEq, Repr

/-- Result of a blocks-first `do_organize` call. -/
structure BOut where
  store : Store
  chaser : Chaser
  events : List Event
  handler : Code × Nat
  deriving DecidableEq, Repr

/-- `chaser_block::get_chain_state`: top cache, then tree, then the
candidate chain state at the archived header's height. -/
def get_chain_state (bc : Chaser) (s : Store) (hash : Nat) :
    Option ChainState :=
  match bc.state with
  | none => none
  | some st =>
    if st.hash = hash then some st
    else
      match bc.tree.lookup hash with
      | some e => some e.state
      | none =>
        match s.to_header hash with
        | none => none
        | some l =>
          match s.get_height l with
          | none => none
          | some h => s.get_candidate_chain_state h

/-- Store loop of `chaser_block::get_branch_work`: as the templated
organizer's, but terminating on `is_candidate_block`. -/
def branch_work_store_block (cfg : Cfg) (s : Store) :
    Nat → Option Nat → Nat → List Nat → Option (Nat × List Nat × Nat)
  | 0, _, _, _ => none
  | fuel + 1, link, work, storeBranch =>
    match link with
    | none => none
    | some l =>
      if s.is_candidate_block l then some (work, storeBranch, l)
      else
        match s.get_bits l with
        | none => none
        | some b =>
          branch_work_store_block cfg s fuel (s.to_parent l)
            (work + cfg.proofOf b) (storeBranch ++ [l])

/-- `chaser_block::get_branch_work`. -/
def get_branch_work (cfg : Cfg) (bc : Chaser) (s : Store) (blk : BlockIn) :
    Option (Nat × Nat × List Nat × List Nat) :=
  match branch_work_tree cfg bc.tree (bc.tree.length + 1) blk.prev
      (cfg.proofOf blk.bits) [] with
  | (previous, w1, treeBranch) =>
    match branch_work_store_block cfg s (s.headers.length + 1)
        (s.to_header previous) w1 [] with
    | none => none
    | some (work, storeBranch, link) =>
      match s.get_height link with
      | none => none
      | some branchPoint => some (work, branchPoint, treeBranch, storeBranch)

/-- Loop of `chaser_block::get_is_strong`: identical accumulation and
early exit to the templated organizer's. -/
def get_is_strong_go (cfg : Cfg) (s : Store) (work branchPoint : Nat) :
    Nat → Nat → Option Bool
  | height, acc =>
    if height ≤ branchPoint then some true
    else
      match height with
      | 0 => some true
      | h + 1 =>
        match s.to_candidate (h + 1) with
        | none => none
        | some link =>
          match s.get_bits link with
          | none => none
          | some b =>
            if work ≤ acc + cfg.proofOf b then some false
            else get_is_strong_go cfg s work branchPoint h (acc + cfg.proofOf b)

/-- `chaser_block::get_is_strong`. -/
def get_is_strong (cfg : Cfg) (s : Store) (work branchPoint : Nat) :
    Option Bool :=
  get_is_strong_go cfg s work branchPoint s.get_top_candidate 0

/-- The check/accept/connect sequence of `chaser_block::do_organize`
(run only when the height is not under a checkpoint): first failure
wins; a failed `query.populate` reports `protocol_violation`. -/
def check_accept_connect (checks : Checks) : Option Code :=
  match checks.check1 with
  | some e => some e
  | none =>
    match checks.check2 with
    | some e => some e
    | none =>
      if !checks.populateOk then some Code.protocolViolation
      else
        match checks.accept with
        | some e => some e
        | none => checks.connect

/-- Plain pop loop of the blocks-first reorganization (no events are
fired by this loop in the source). -/
def pop_cand_plain (branchPoint : Nat) : Store → Nat → Except Store Store
  | s, 0 => Except.ok s
  | s, i + 1 =>
    if i + 1 ≤ branchPoint then Except.ok s
    else
      match s.pop_candidate with
      | none => Except.error s
      | some s' => pop_cand_plain branchPoint s' i

/-- Plain push loop for the store branch of the blocks-first
reorganization. -/
def push_links_plain (s : Store) : List Nat → Except Store Store
  | [] => Except.ok s
  | l :: rest =>
    match s.push_candidate l with
    | none => Except.error s
    | some s' => push_links_plain s' rest

/-- `chaser_block::push_block(key)`: move the keyed tree block into the
store and push it onto the candidate index. -/
def push_block_key (bc : Chaser) (s : Store) (key : Nat) :
    Option (Chaser × Store) :=
  match bc.tree.lookup key with
  | none => none
  | some e =>
    let bc' := { bc with tree := bc.tree.eraseP (fun p => p.1 == key) }
    match s.set_link e.blk e.state.height with
    | (link, s1) =>
      match s1.push_candidate link with
      | none => none
      | some s2 => some (bc', s2)

/-- Push loop for the tree branch of the blocks-first reorganization. -/
def push_tree_plain (bc : Chaser) (s : Store) :
    List Nat → Except (Chaser × Store) (Chaser × Store)
  | [] => Except.ok (bc, s)
  | key :: rest =>
    match push_block_key bc s key with
    | none => Except.error (bc, s)
    | some (bc1, s1) => push_tree_plain bc1 s1 rest

/-- Reorganization tail of `chaser_block::do_organize`: pop to the
branch point, push the store branch, the tree branch and the new block,
notify `chase::block(branch_point)` and refresh `state_`. -/
def do_organize_reorg (bc : Chaser) (s : Store) (blk : BlockIn)
    (state : ChainState) (height branchPoint : Nat)
    (treeBranch storeBranch : List Nat) : BOut :=
  let top := ((bc.state.map (·.height)).getD 0)
  if top < branchPoint then ⟨s, bc, [], (Code.storeIntegrity, height)⟩
  else
    match pop_cand_plain branchPoint s top with
    | Except.error s1 => ⟨s1, bc, [], (Code.storeIntegrity, height)⟩
    | Except.ok s1 =>
      match push_links_plain s1 storeBranch.reverse with
      | Except.error s2 => ⟨s2, bc, [], (Code.storeIntegrity, height)⟩
      | Except.ok s2 =>
        match push_tree_plain bc s2 treeBranch.reverse with
        | Except.error (bc1, s3) => ⟨s3, bc1, [], (Code.storeIntegrity, height)⟩
        | Except.ok (bc1, s3) =>
          match s3.set_link blk state.height with
          | (link, s4) =>
            match s4.push_candidate link with
            | none => ⟨s3, bc1, [], (Code.storeIntegrity, height)⟩
            | some s5 =>
              ⟨s5, { bc1 with state := some state },
               [Event.note Code.success Chase.blockEvent branchPoint],
               (Code.success, height)⟩

/-- Body of `chaser_block::do_organize` after the check/accept/connect
section: relative work, strength, and reorganization or caching. -/
def do_organize_work (cfg : Cfg) (bc : Chaser) (s : Store) (blk : BlockIn)
    (state : ChainState) (height : Nat) : BOut :=
  match get_branch_work cfg bc s blk with
  | none => ⟨s, bc, [], (Code.storeIntegrity, height)⟩
  | some (work, branchPoint, treeBranch, storeBranch) =>
    match get_is_strong cfg s work branchPoint with
    | none => ⟨s, bc, [], (Code.storeIntegrity, height)⟩
    | some strong =>
      if !strong then
        ⟨s, { bc with tree := (blk.hash, ⟨blk, state⟩) :: bc.tree }, [],
         (Code.success, height)⟩
      else
        do_organize_reorg bc s blk state height branchPoint treeBranch
          storeBranch

/-- `chaser_block::do_organize(block, handler)`: dedupe against the tree
and the archived block state, parent lookup, chain-state rollforward,
checkpoint conflict, then — exactly when the height is not under a
configured checkpoint — the `check()` / `check(context)` / `populate` /
`accept` / `connect` sequence, and finally the relative-work section. -/
def do_organize (cfg : Cfg) (bc : Chaser) (s : Store) (blk : BlockIn)
    (checks : Checks) (closed : Bool) : BOut :=
  if closed then ⟨s, bc, [], (Code.serviceStopped, 0)⟩
  else if (bc.tree.lookup blk.hash).isSome then
    ⟨s, bc, [], (Code.duplicate, 0)⟩
  else
    let dedupe : Option (Code × Nat) :=
      match s.to_header blk.hash with
      | none => none
      | some link =>
        let ec := s.get_block_state link
        if ec = Code.blockUnconfirmable then some (ec, 0)
        else if ec ≠ Code.unassociated then some (Code.duplicate, 0)
        else none
    match dedupe with
    | some out => ⟨s, bc, [], out⟩
    | none =>
      match get_chain_state bc s blk.prev with
      | none => ⟨s, bc, [], (Code.orphan, 0)⟩
      | some parent =>
        let state : ChainState := ⟨parent.height + 1, blk.hash⟩
        let height := state.height
        if checkpoint_is_conflict cfg.checkpoints blk.hash height then
          ⟨s, bc, [], (Code.checkpointConflict, height)⟩
        else if ¬checkpoint_is_under cfg.checkpoints height then
          match check_accept_connect checks with
          | some ec => ⟨s, bc, [], (ec, height)⟩
          | none => do_organize_work cfg bc s blk state height
        else do_organize_work cfg bc s blk state height

end Node.BlockChaser

namespace Node

/-- Modelled from the spec: the validation-bypass upper bound — "the
greater of the highest checkpoint and the active milestone". -/
def spec_bypass_bound (topCheckpoint activeMilestone : Nat) : Nat :=
  max topCheckpoint activeMilestone

end Node

namespace Node.Organize

/-- The dedupe verdict of `organize` as the spec words it: a tree hit is
a `duplicate`; an archived header in `unconfirmable` block state reports
that code; an archived header otherwise is a `duplicate` unless this is
block mode and the state is `unassociated`. -/
def dedupe_verdict (tree : List (Nat × TreeEntry)) (s : Store)
    (isBlock : Bool) (hash : Nat) : Option Code :=
  if (tree.lookup hash).isSome then some Code.duplicate
  else
    match s.to_header hash with
    | none => none
    | some id =>
      if s.get_header_state id = Code.blockUnconfirmable then
        some Code.blockUnconfirmable
      else if ¬isBlock ∨ s.get_header_state id ≠ Code.unassociated then
        some Code.duplicate
      else none

/-- The candidate chain's work summed from the given height down to
(exclusive) the branch point, `none` when some bits are unreadable: the
total the strength decision compares against. -/
def candidate_work_go (cfg : Cfg) (s : Store) (branchPoint : Nat) :
    Nat → Option Nat
  | 0 => some 0
  | h + 1 =>
    if h + 1 ≤ branchPoint then some 0
    else
      match s.to_candidate (h + 1) with
      | none => none
      | some l =>
        match s.get_bits l with
        | none => none
        | some b =>
          (candidate_work_go cfg s branchPoint h).map
            (fun w => cfg.proofOf b + w)

/-- The candidate chain's work from `get_top_candidate` down to
(exclusive) the branch point. -/
def candidate_work (cfg : Cfg) (s : Store) (branchPoint : Nat) : Option Nat :=
  candidate_work_go cfg s branchPoint s.get_top_candidate

/-- Scenario fixture (milestone reset): configuration whose milestone is
`(2, 102)`. -/
def c4_cfg : Cfg where
  isBlock := false
  milestoneHeight := 2
  milestoneHash := 102
  topCheckpoint := 0
  checkpoints := []
  windowMinutes := 0
  now := 0
  proofOf := fun b => b

/-- Scenario fixture (milestone reset): candidate chain `[0, 1, 2]` with
hashes `100, 101, 102`; the milestone header `102` sits at height 2. -/
def c4_store : Store where
  headers := [(0, ⟨100, 99, 1, 0, 0⟩), (1, ⟨101, 100, 1, 0, 1⟩),
              (2, ⟨102, 101, 1, 0, 2⟩)]
  headerState := []
  candidate := [0, 1, 2]
  confirmed := [0]
  nextLink := 3

/-- Scenario fixture (milestone reset): the milestone at height 2 is
active. -/
def c4_org : Organizer where
  tree := []
  state := some ⟨2, 102⟩
  activeMilestone := 2

/-- Scenario fixture (milestone reset): a strong header forking at
height 1 (branch point 1), displacing the milestone header at height 2. -/
def c4_blk : BlockIn := ⟨200, 101, 50, 0⟩

/-- Scenario fixture (disorganize): plain configuration. -/
def c5_cfg : Cfg where
  isBlock := false
  milestoneHeight := 0
  milestoneHash := 0
  topCheckpoint := 0
  checkpoints := []
  windowMinutes := 0
  now := 0
  proofOf := fun b => b

/-- Scenario fixture (disorganize): genesis plus H1..H5 at links 1..5
with hashes 101..105, all candidate; genesis, H1, H2 confirmed. -/
def c5_store : Store where
  headers := [(0, ⟨100, 99, 1, 0, 0⟩), (1, ⟨101, 100, 1, 0, 1⟩),
              (2, ⟨102, 101, 1, 0, 2⟩), (3, ⟨103, 102, 1, 0, 3⟩),
              (4, ⟨104, 103, 1, 0, 4⟩), (5, ⟨105, 104, 1, 0, 5⟩)]
  headerState := []
  candidate := [0, 1, 2, 3, 4, 5]
  confirmed := [0, 1, 2]
  nextLink := 6

/-- Scenario fixture (disorganize): empty tree, top candidate state at
height 5. -/
def c5_org : Organizer where
  tree := []
  state := some ⟨5, 105⟩
  activeMilestone := 0

/-- Scenario fixture (tie on work): plain configuration. -/
def c6_cfg : Cfg where
  isBlock := false
  milestoneHeight := 0
  milestoneHash := 0
  topCheckpoint := 0
  checkpoints := []
  windowMinutes := 0
  now := 0
  proofOf := fun b => b

/-- Scenario fixture (tie on work): genesis (link 0) and one candidate
header (link 1) of proof 5. -/
def c6_store : Store where
  headers := [(0, ⟨100, 99, 1, 0, 0⟩), (1, ⟨101, 100, 5, 0, 1⟩)]
  headerState := []
  candidate := [0, 1]
  confirmed := [0]
  nextLink := 2

/-- Scenario fixture (tie on work). -/
def c6_org : Organizer where
  tree := []
  state := some ⟨1, 101⟩
  activeMilestone := 0

/-- Scenario fixture (tie on work): a header forking at genesis whose
proof (5) ties the candidate's work above the branch point. -/
def c6_blk : BlockIn := ⟨60, 100, 5, 0⟩

/-- Scenario fixture (dedupe): an organizer whose tree caches hash 7 at
height 4. -/
def c8_org : Organizer where
  tree := [(7, ⟨⟨7, 6, 1, 0⟩, ⟨4, 7⟩⟩)]
  state := some ⟨1, 101⟩
  activeMilestone := 0

/-- Scenario fixture (dedupe): an archive holding header hash 9 at link 0
in `block_unconfirmable` state. -/
def c8_store : Store where
  headers := [(0, ⟨9, 8, 1, 0, 3⟩)]
  headerState := [(0, Code.blockUnconfirmable)]
  candidate := []
  confirmed := []
  nextLink := 1

/-- Scenario fixture (dedupe): plain configuration, header mode. -/
def c8_cfg : Cfg where
  isBlock := false
  milestoneHeight := 0
  milestoneHash := 0
  topCheckpoint := 0
  checkpoints := []
  windowMinutes := 0
  now := 0
  proofOf := fun b => b

/-- Scenario fixture (disorganize guards): a one-header store. -/
def c10_store : Store where
  headers := [(0, ⟨100, 99, 1, 0, 0⟩)]
  headerState := []
  candidate := [0]
  confirmed := [0]
  nextLink := 1

/-- Scenario fixture (disorganize guards). -/
def c10_org : Organizer where
  tree := []
  state := some ⟨0, 100⟩
  activeMilestone := 0

/-- Scenario fixture (disorganize guards): plain configuration. -/
def c10_cfg : Cfg where
  isBlock := false
  milestoneHeight := 0
  milestoneHash := 0
  topCheckpoint := 0
  checkpoints := []
  windowMinutes := 0
  now := 0
  proofOf := fun b => b

end Node.Organize

namespace Node.BlockChaser

open Node.Organize

/-- Scenario fixture (blocks-first bypass): top checkpoint at height 2
(hash 100); the spec-side active milestone for the scenario is height 5. -/
def c3_cfg : Cfg where
  isBlock := true
  milestoneHeight := 5
  milestoneHash := 105
  topCheckpoint := 2
  checkpoints := [(2, 100)]
  windowMinutes := 0
  now := 0
  proofOf := fun b => b

/-- Scenario fixture (blocks-first bypass): candidate chain of three
blocks, top hash 100 at height 2. -/
def c3_store : Store where
  headers := [(0, ⟨50, 49, 1, 0, 0⟩), (1, ⟨51, 50, 1, 0, 1⟩),
              (2, ⟨100, 51, 1, 0, 2⟩)]
  headerState := []
  candidate := [0, 1, 2]
  confirmed := [0]
  nextLink := 3

/-- Scenario fixture (blocks-first bypass). -/
def c3_bc : Chaser where
  tree := []
  state := some ⟨2, 100⟩

/-- Scenario fixture (blocks-first bypass): a block at height 3,
extending the candidate top. -/
def c3_blk : BlockIn := ⟨52, 100, 1, 0⟩

/-- Scenario fixture (blocks-first bypass): the block's structural
`check()` fails. -/
def c3_checks : Checks where
  check1 := some Code.invalid
  check2 := none
  populateOk := true
  accept := none
  connect := none

end Node.BlockChaser

namespace Node

theorem lookup_isSome_of_mem {β : Type} {l : List (Nat × β)} {k : Nat} {v : β}
    (h : (k, v) ∈ l) : (l.lookup k).isSome := by
  induction l with
  | nil => cases h
  | cons a t ih =>
    obtain ⟨a1, a2⟩ := a
    rcases List.mem_cons.mp h with heq | hmem
    · obtain ⟨rfl, rfl⟩ := Prod.mk.injEq .. ▸ heq
      simp [List.lookup]
    · by_cases hk : k == a1
      · simp [List.lookup, hk]
      · simp only [List.lookup, hk]
        exact ih hmem

theorem to_header_get_height (s : Organize.Store) (hash id : Nat)
    (h : s.to_header hash = some id) :
    ∃ hh, s.get_height id = some hh := by
  unfold Organize.Store.to_header at h
  obtain ⟨pr, hfind, hfst⟩ :
      ∃ pr, s.headers.find? (fun p => p.2.hash == hash) = some pr ∧ pr.1 = id := by
    cases hf : s.headers.find? (fun p => p.2.hash == hash) with
    | none => rw [hf] at h; simp at h
    | some pr => rw [hf] at h; simp at h; exact ⟨pr, rfl, h⟩
  have hmem : pr ∈ s.headers := List.mem_of_find?_eq_some hfind
  obtain ⟨k, v⟩ := pr
  cases hfst
  have hsome := lookup_isSome_of_mem hmem
  obtain ⟨r, hr⟩ := Option.isSome_iff_exists.mp hsome
  exact ⟨r.height, by unfold Organize.Store.get_height Organize.Store.headerOf
                      rw [hr]; rfl⟩

/-- C9: `full_node::is_current(timestamp)` returns true for every
timestamp when `node.currency_window_minutes` is zero, and otherwise
returns true exactly when the timestamp lies within the configured
currency window of wall-clock now. -/
theorem c9_is_current_iff_within_window (w now t : Nat) :
    is_current w now t = true ↔
      (w = 0 ∨ within_currency_window w now t = true) := by
  simp only [is_current, within_currency_window, currency_window,
    Bool.or_eq_true, decide_eq_true_eq]
  omega

end Node

namespace Node.Confirm

/-- C1: the claim states that when a fork link's stored block state reads
`block_unconfirmable`, `do_validated` emits `unconfirmable` and then
rolls the confirmed chain back so that it is unchanged.  The code
evaluation at the scenario (confirmed `[0, 1, 2]`, candidate
`[0, 1, 10, 11]`, link `10` stored `block_unconfirmable`, validated
height 3) shows the chaser pops link `2`, emits `unconfirmable(10)` and
returns with the confirmed chain left at `[0, 1]` — the source's
`TODO: rollback required` branch performs no rollback and the popped
link is never re-pushed. -/
theorem c1_block_unconfirmable_skips_rollback :
    c1_store.confirmed = [0, 1, 2] ∧
    (do_validated c1_store 0 false 3).store.confirmed = [0, 1] ∧
    (do_validated c1_store 0 false 3).events =
      [Event.note Code.success Chase.reorganized 2,
       Event.fired Fired.blockReorganized 2,
       Event.note Code.blockUnconfirmable Chase.unconfirmable 10,
       Event.fired Fired.blockUnconfirmable 2] ∧
    (do_validated c1_store 0 false 3).fault = none := by
  decide

/-- C2: the claim states that the incumbent's work is summed from
`top_confirmed` down to the fork point and that the fork is strong iff
its work strictly exceeds that sum.  At the scenario (confirmed
`[0, 1, 2, 3]` with work 21 above the fork point 0, candidate
`[0, 10, 11]` with fork work 3, validated height 2) the spec's range
judges the fork weak (`get_is_strong` at the fork point returns false),
but `do_validated` passes `height` instead of the fork point to
`get_is_strong` — summing only above height 2 — judges it strong, and
reorganizes the confirmed chain to the weaker fork. -/
theorem c2_strength_summation_range :
    spec_confirmed_work c2_store 0 c2_store.get_top_confirmed = 21 ∧
    get_fork_work c2_store 2 0 [] = some (3, [11, 10]) ∧
    get_is_strong c2_store 3 0 = some false ∧
    get_is_strong c2_store 3 2 = some true ∧
    c2_store.confirmed = [0, 1, 2, 3] ∧
    (do_validated c2_store 0 false 2).store.confirmed = [0, 10, 11] ∧
    (do_validated c2_store 0 false 2).fault = none := by
  decide

/-- C7: the claim states that when `block_confirmable(link)` fails while
not under bypass, the chaser marks the block unconfirmable, emits
`unconfirmable`, and restores the pre-call confirmed chain.  At the
scenario (confirmed `[0, 1, 2]`, candidate `[0, 1, 10, 11]`, validation
failing on link `10` at height 2), the code marks and emits, but calls
`roll_back` with `index` — the failing height, one above the actual
confirmed top — so the first `set_reorganized` hits a terminal
`to_confirmed` link and fails: the call faults with `node_roll_back`,
the popped link `2` is never re-pushed, and the confirmed chain is left
at `[0, 1]`.  The same store rolled back from the true top (1) would
have restored `[0, 1, 2]`. -/
theorem c7_roll_back_called_above_top_faults :
    c7_store.confirmed = [0, 1, 2] ∧
    (do_validated c7_store 0 false 3).store.confirmed = [0, 1] ∧
    (do_validated c7_store 0 false 3).fault = some Code.nodeRollBack ∧
    (do_validated c7_store 0 false 3).store.get_block_state 10 =
      Code.blockUnconfirmable ∧
    (do_validated c7_store 0 false 3).events =
      [Event.note Code.success Chase.reorganized 2,
       Event.fired Fired.blockReorganized 2,
       Event.note Code.invalid Chase.unconfirmable 10,
       Event.fired Fired.blockUnconfirmable 2] ∧
    (roll_back (do_validated c7_store 0 false 3).store [2] 1 1).1 = true ∧
    (roll_back (do_validated c7_store 0 false 3).store [2] 1 1).2.1.confirmed =
      [0, 1, 2] := by
  decide

end Node.Confirm

namespace Node.BlockChaser

open Node.Organize

/-- C3: the claim states that the blocks-first check/accept/connect
sequence is skipped exactly when the height is at or below the greater
of the highest checkpoint and the active milestone.  At the scenario
(top checkpoint 2, milestone active at 5, block at height 3 whose
`check()` fails) the claimed bound covers height 3, yet
`chaser_block::do_organize` consults only `checkpoint::is_under` —
height 3 is not under the checkpoint, the sequence runs, and the
`check()` failure is reported to the handler. -/
theorem c3_validation_not_bypassed_under_milestone :
    3 ≤ Node.spec_bypass_bound c3_cfg.topCheckpoint 5 ∧
    checkpoint_is_under c3_cfg.checkpoints 3 = false ∧
    do_organize c3_cfg c3_bc c3_store c3_blk c3_checks false =
      ⟨c3_store, c3_bc, [], (Code.invalid, 3)⟩ := by
  decide

end Node.BlockChaser

namespace Node.Organize

/-- C4: the claim states that after popping the candidate chain to the
branch point, the active milestone is reset to the branch point (lowered
whenever it exceeds it).  At the scenario (candidate `[0, 1, 2]` with
the milestone `(2, 102)` active, a strong header at branch point 1),
the source's `reset_milestone(++index)` receives `branch_point + 1 = 2`,
so the active milestone 2 — which exceeds the branch point 1 — is left
unchanged while the milestone header at height 2 is popped and replaced
by the new header (hash 200 ≠ 102). -/
theorem c4_reset_milestone_off_by_one :
    get_branch_work c4_cfg c4_org c4_store c4_blk = some (50, 1, [], []) ∧
    (do_organize c4_cfg c4_org c4_store c4_blk false none true).org.activeMilestone = 2 ∧
    (do_organize c4_cfg c4_org c4_store c4_blk false none true).store.candidate =
      [0, 1, 3] ∧
    (do_organize c4_cfg c4_org c4_store c4_blk false none true).store.get_header_key 3 =
      200 ∧
    c4_cfg.milestoneHash = 102 ∧
    (do_organize c4_cfg c4_org c4_store c4_blk false none true).handler =
      (Code.success, 2) := by
  decide

/-- C5 counterexample: the claim states that `do_disorganize` moves the
candidates at heights `fork_point + 1` up to the failing height into the
HeaderTree, and that in the five-header scenario with `unvalid(H3)` and
confirmed top 2 the tree holds H3..H5.  Evaluating the embedded
`do_disorganize` on that scenario (failing link 3 = H3, hash 103): the
candidate is truncated to `[0, 1, 2]` and `disorganized(2)` fires, but
the HeaderTree stays empty — H3 (hash 103) in particular is not in it. -/
theorem c5_failing_header_not_moved_to_tree :
    (do_disorganize c5_cfg c5_org c5_store 3 false).org.tree = [] ∧
    (do_disorganize c5_cfg c5_org c5_store 3 false).org.tree.lookup 103 = none ∧
    (do_disorganize c5_cfg c5_org c5_store 3 false).store.candidate = [0, 1, 2] ∧
    (do_disorganize c5_cfg c5_org c5_store 3 false).events =
      [Event.fired Fired.headerReorganized 5,
       Event.fired Fired.headerReorganized 4,
       Event.fired Fired.headerReorganized 3,
       Event.note Code.success Chase.disorganized 2] ∧
    (do_disorganize c5_cfg c5_org c5_store 3 false).fault = none := by
  decide

/-- C5 (amended): `do_disorganize(link)` moves the candidate headers at
heights `fork_point + 1` up to `height - 1` (strictly below the failing
header) into the HeaderTree in forward order, pops the candidate chain
down to the fork point, re-pushes the confirmed entries above it, and
emits `disorganized(fork_point)`; in the five-header scenario with
`unvalid(H3)` and confirmed top 2 the candidate becomes H1, H2 and the
HeaderTree receives nothing (H3..H5 are discarded).  Evaluated here on
the H3 scenario, and on the variant failing at H4 — where exactly H3
(height 3 = fork+1 .. 4-1) moves into the tree with its forward-chained
state. -/
theorem c5_disorganize_moves_strictly_below_failing :
    (do_disorganize c5_cfg c5_org c5_store 3 false).store.candidate = [0, 1, 2] ∧
    (do_disorganize c5_cfg c5_org c5_store 3 false).org.tree = [] ∧
    (do_disorganize c5_cfg c5_org c5_store 3 false).fault = none ∧
    (do_disorganize c5_cfg c5_org c5_store 3 false).events =
      [Event.fired Fired.headerReorganized 5,
       Event.fired Fired.headerReorganized 4,
       Event.fired Fired.headerReorganized 3,
       Event.note Code.success Chase.disorganized 2] ∧
    (do_disorganize c5_cfg c5_org c5_store 4 false).org.tree =
      [(103, ⟨⟨103, 102, 1, 0⟩, ⟨3, 103⟩⟩)] ∧
    (do_disorganize c5_cfg c5_org c5_store 4 false).store.candidate = [0, 1, 2] ∧
    (do_disorganize c5_cfg c5_org c5_store 4 false).events =
      [Event.fired Fired.headerReorganized 5,
       Event.fired Fired.headerReorganized 4,
       Event.fired Fired.headerReorganized 3,
       Event.note Code.success Chase.disorganized 2] ∧
    (do_disorganize c5_cfg c5_org c5_store 4 false).fault = none := by
  decide

end Node.Organize

namespace Node.Organize

theorem get_is_strong_go_spec (cfg : Cfg) (s : Store) (work bp : Nat) :
    ∀ h acc w, candidate_work_go cfg s bp h = some w → acc < work →
      get_is_strong_go cfg s work bp h acc = some (decide (acc + w < work)) := by
  intro h
  induction h with
  | zero =>
    intro acc w hw hacc
    simp only [candidate_work_go, Option.some.injEq] at hw
    subst hw
    rw [get_is_strong_go]
    rw [if_pos (Nat.zero_le bp), decide_eq_true (by omega : acc + 0 < work)]
  | succ n ih =>
    intro acc w hw hacc
    rw [candidate_work_go] at hw
    rw [get_is_strong_go]
    by_cases hbp : n + 1 ≤ bp
    · rw [if_pos hbp] at hw ⊢
      obtain rfl : (0 : Nat) = w := Option.some.inj hw
      rw [decide_eq_true (by omega : acc + 0 < work)]
    · rw [if_neg hbp] at hw ⊢
      cases hc : s.to_candidate (n + 1) with
      | none => simp [hc] at hw
      | some l =>
        simp only [hc] at hw ⊢
        cases hb : s.get_bits l with
        | none => simp [hb] at hw
        | some b =>
          simp only [hb] at hw ⊢
          cases hrec : candidate_work_go cfg s bp n with
          | none => simp [hrec] at hw
          | some w' =>
            simp only [hrec, Option.map_some'] at hw
            obtain rfl : cfg.proofOf b + w' = w := Option.some.inj hw
            by_cases hle : work ≤ acc + cfg.proofOf b
            · rw [if_pos hle,
                decide_eq_false (by omega : ¬acc + (cfg.proofOf b + w') < work)]
            · rw [if_neg hle, ih (acc + cfg.proofOf b) w' hrec (by omega)]
              congr 1
              have : acc + cfg.proofOf b + w' = acc + (cfg.proofOf b + w') := by omega
              rw [this]

theorem get_is_strong_spec (cfg : Cfg) (s : Store) (work bp w : Nat)
    (hw : candidate_work cfg s bp = some w) (hpos : 0 < work) :
    get_is_strong cfg s work bp = some (decide (w < work)) := by
  unfold get_is_strong
  unfold candidate_work at hw
  rw [get_is_strong_go_spec cfg s work bp s.get_top_candidate 0 w hw hpos]
  congr 1
  simp

/-- C6: a new branch whose work over the range above the branch point is
equal to or less than the candidate chain's work over the same range is
judged not strong, and `do_organize` causes no candidate reorganization:
the block is cached into the HeaderTree and the handler receives
success; only strictly greater work is judged strong.  The strength test
is exactly `candidate_work < branch work` (first conjunct), and on a tie
or deficit the store — candidate chain included — is returned unchanged,
with the tree extended by the new entry and no events emitted. -/
theorem c6_tie_or_less_is_not_strong_no_reorg (cfg : Cfg) (org : Organizer)
    (s : Store) (blk : BlockIn) (parent : ChainState)
    (work bp : Nat) (tb sb : List Nat) (w : Nat)
    (h1 : org.tree.lookup blk.hash = none)
    (h2 : s.to_header blk.hash = none)
    (h3 : get_chain_state org s blk.prev = some parent)
    (h4 : checkpoint_is_conflict cfg.checkpoints blk.hash (parent.height + 1) = false)
    (h5 : get_branch_work cfg org s blk = some (work, bp, tb, sb))
    (h6 : candidate_work cfg s bp = some w)
    (h7 : 0 < work) :
    get_is_strong cfg s work bp = some (decide (w < work)) ∧
    (work ≤ w →
      do_organize cfg org s blk false none true =
        ⟨s, cache org blk ⟨parent.height + 1, blk.hash⟩, [],
         (Code.success, parent.height + 1)⟩) := by
  have hstrong := get_is_strong_spec cfg s work bp w h6 h7
  refine ⟨hstrong, fun hle => ?_⟩
  have hfalse : decide (w < work) = false := by
    simp only [decide_eq_false_iff_not]
    omega
  rw [hfalse] at hstrong
  simp only [do_organize, Bool.false_eq_true, if_false, h1, h2,
    do_organize_main, h3, h4, Bool.not_true, hstrong, h5, Bool.not_false,
    if_true, if_false, Bool.true_eq_false]

/-- C6 witness: the tie scenario — a header of proof 5 forking at
genesis against a candidate of work 5 above the branch point — is cached
with success and nothing is reorganized. -/
theorem c6_tie_witness :
    do_organize c6_cfg c6_org c6_store c6_blk false none true =
      ⟨c6_store, cache c6_org c6_blk ⟨1, 60⟩, [], (Code.success, 1)⟩ :=
  (c6_tie_or_less_is_not_strong_no_reorg c6_cfg c6_org c6_store c6_blk
    ⟨0, 100⟩ 5 0 [] [] 5 (by decide) (by decide) (by decide) (by decide)
    (by decide) (by decide) (by decide)).2 (by decide)

/-- C8: every submission whose dedupe verdict is a rejection — hash in
the tree (`duplicate`), archived header in `unconfirmable` block state
(that code), or archived header in header mode or with state other than
`unassociated` (`duplicate`) — is reported to the handler with exactly
that code, and neither the store nor the organizer (tree included) is
mutated, with no events emitted. -/
theorem c8_dedupe_rejections_frame (cfg : Cfg) (org : Organizer) (s : Store)
    (blk : BlockIn) (validateRes : Option Code) (storable : Bool) (c : Code)
    (h : dedupe_verdict org.tree s cfg.isBlock blk.hash = some c) :
    (do_organize cfg org s blk false validateRes storable).handler.1 = c ∧
    (do_organize cfg org s blk false validateRes storable).store = s ∧
    (do_organize cfg org s blk false validateRes storable).org = org ∧
    (do_organize cfg org s blk false validateRes storable).events = [] := by
  unfold dedupe_verdict at h
  by_cases ht : (org.tree.lookup blk.hash).isSome
  · obtain ⟨e, he⟩ := Option.isSome_iff_exists.mp ht
    rw [if_pos ht] at h
    obtain rfl : Code.duplicate = c := Option.some.inj h
    simp [do_organize, he]
  · rw [if_neg ht] at h
    have htn : org.tree.lookup blk.hash = none :=
      Option.not_isSome_iff_eq_none.mp ht
    cases hth : s.to_header blk.hash with
    | none => simp [hth] at h
    | some id =>
      simp only [hth] at h
      obtain ⟨hh, hheight⟩ := Node.to_header_get_height s blk.hash id hth
      by_cases h1 : s.get_header_state id = Code.blockUnconfirmable
      · rw [if_pos h1] at h
        obtain rfl : Code.blockUnconfirmable = c := Option.some.inj h
        simp [do_organize, htn, hth, hheight, h1]
      · rw [if_neg h1] at h
        by_cases h2 : ¬cfg.isBlock ∨ s.get_header_state id ≠ Code.unassociated
        · rw [if_pos h2] at h
          obtain rfl : Code.duplicate = c := Option.some.inj h
          have h2' : cfg.isBlock = false ∨
              ¬s.get_header_state id = Code.unassociated := by
            rcases h2 with hx | hx
            · exact Or.inl (by simpa using hx)
            · exact Or.inr hx
          simp [do_organize, htn, hth, hheight, h1, h2']
        · rw [if_neg h2] at h; cases h

/-- C8 witness: an archived header (hash 9) in `block_unconfirmable`
state is rejected with that code and nothing is mutated. -/
theorem c8_dedupe_witness :
    dedupe_verdict c8_org.tree c8_store c8_cfg.isBlock
        (⟨9, 8, 1, 0⟩ : BlockIn).hash = some Code.blockUnconfirmable ∧
    (do_organize c8_cfg c8_org c8_store ⟨9, 8, 1, 0⟩ false none true).handler.1 =
        Code.blockUnconfirmable ∧
    (do_organize c8_cfg c8_org c8_store ⟨9, 8, 1, 0⟩ false none true).store =
        c8_store ∧
    (do_organize c8_cfg c8_org c8_store ⟨9, 8, 1, 0⟩ false none true).org =
        c8_org ∧
    (do_organize c8_cfg c8_org c8_store ⟨9, 8, 1, 0⟩ false none true).events =
        [] :=
  ⟨by decide,
   c8_dedupe_rejections_frame c8_cfg c8_org c8_store ⟨9, 8, 1, 0⟩ none true
     Code.blockUnconfirmable (by decide)⟩

/-- C10: a `do_disorganize(link)` invocation on a closed node, or whose
link is no longer a candidate header, returns with the store, the
HeaderTree, the cached top chain state and the active milestone all
unchanged, no events emitted and no fault. -/
theorem c10_disorganize_guard_frame (cfg : Cfg) (org : Organizer) (s : Store)
    (link : Nat) (closed : Bool)
    (h : closed = true ∨ s.is_candidate_header link = false) :
    do_disorganize cfg org s link closed = ⟨s, org, [], none⟩ := by
  rcases h with h | h
  · subst h
    rw [do_disorganize, if_pos rfl]
  · cases closed
    · rw [do_disorganize, if_neg (by simp), if_pos (by simp [h])]
    · rw [do_disorganize, if_pos rfl]

/-- C10 witness: link 7 is not archived, hence not a candidate header;
the call is a no-op. -/
theorem c10_disorganize_guard_witness :
    c10_store.is_candidate_header 7 = false ∧
    do_disorganize c10_cfg c10_org c10_store 7 false =
      ⟨c10_store, c10_org, [], none⟩ :=
  ⟨by decide,
   c10_disorganize_guard_frame c10_cfg c10_org c10_store 7 false
     (Or.inr (by decide))⟩

end Node.Organize
